import Mathlib

/-!
# Verification of the Cheshire street-crime CSV pipeline

Shallow embedding of `src/pipeline.py`, a three-stage pandas pipeline
(stage → primary → reporting) plus its orchestrator `main` and the
module-level behaviour of the script itself.

Modelling conventions:
* A pandas `DataFrame` is a `Df`: a list of column names together with a
  list of rows; each cell is an `Option Val` where `none` models
  `NaN`/missing and `Val` is either a string or an (exact) number.
  Floating-point rounding is not modelled; `Location Sum` arithmetic is
  carried out over `ℚ`.
* Functions that can raise pandas exceptions (`KeyError` on a missing
  column label, `ParserError`, `TypeError`) are embedded as
  `Except String _`; a caught-and-logged exception corresponds to the
  `.error` branch.
* The filesystem is an association list from path to file content; a
  written table is read back unchanged (CSV serialization fidelity is
  not itself modelled, and no claim depends on it).
-/

/-- A scalar cell value of a table: a string or a number.  pandas floats
are modelled exactly over `ℚ`. -/
inductive Val where
  | str : String → Val
  | num : ℚ → Val
deriving DecidableEq, Repr

/-- A table row: one cell per column, `none` modelling `NaN`/null. -/
abbrev Row := List (Option Val)

/-- A DataFrame: column labels plus rows. -/
structure Df where
  cols : List String
  rows : List Row
deriving DecidableEq, Repr

/-- Rectangularity: every row has exactly one cell per column. -/
def Wf (df : Df) : Prop := ∀ r ∈ df.rows, r.length = df.cols.length

instance (df : Df) : Decidable (Wf df) := by
  unfold Wf; infer_instance

/-- Index of the first column with the given label (pandas label lookup). -/
def colIdx : List String → String → Option Nat
  | [], _ => none
  | c' :: cs, c => if c' = c then some 0 else (colIdx cs c).map (· + 1)

/-- Cell of a row at a column label; outer `none` means the column is
absent (a `KeyError` in pandas), inner `none` means `NaN`. -/
def getCellQ (cols : List String) (r : Row) (c : String) : Option (Option Val) :=
  (colIdx cols c).bind (fun i => r.get? i)

/-- Cell of a row at a column label, with a missing column conflated with
`NaN`; used only where presence of the column is ensured separately. -/
def cellAt (cols : List String) (r : Row) (c : String) : Option Val :=
  (getCellQ cols r c).join

/-- The values of one column, top to bottom. -/
def colVals (df : Df) (c : String) : List (Option Val) :=
  df.rows.map (fun r => cellAt df.cols r c)

/-- Column assignment `df[c] = vals`: replace the column `c` in place when it exists,
otherwise append it on the right (pandas column assignment). -/
def setColDf (df : Df) (c : String) (vals : List (Option Val)) : Df :=
  match colIdx df.cols c with
  | some i => ⟨df.cols, (df.rows.zip vals).map (fun p => p.1.set i p.2)⟩
  | none => ⟨df.cols ++ [c], (df.rows.zip vals).map (fun p => p.1 ++ [p.2])⟩

/-! ## `categorize_outcome` (src/pipeline.py lines 50–65) -/

/-- The first membership list of `categorize_outcome`. -/
def noFurtherActionOutcomes : List String :=
  ["Unable to prosecute suspect",
   "Investigation complete; no suspect identified",
   "Status update unavailable"]

/-- The second membership list of `categorize_outcome`. -/
def nonCriminalOutcomes : List String :=
  ["Local resolution",
   "Offender given a caution",
   "Action to be taken by another organisation",
   "Awaiting court outcome"]

/-- The third membership list of `categorize_outcome`. -/
def publicInterestOutcomes : List String :=
  ["Further investigation is not in the public interest",
   "Further action is not in the public interest",
   "Formal action is not in the public interest"]

/-- Function `categorize_outcome(outcome)`: successive membership tests against the
three hardcoded lists, defaulting to `"Unknown"`.  A Python `in` test of a
non-string (`None`, `NaN`, a float) against a list of strings is `False`,
so every non-string input falls through to `"Unknown"`. -/
def categorize_outcome (outcome : Option Val) : String :=
  match outcome with
  | some (Val.str s) =>
    if s ∈ noFurtherActionOutcomes then "No Further Action"
    else if s ∈ nonCriminalOutcomes then "Non-criminal Outcome"
    else if s ∈ publicInterestOutcomes then "Public Interest Consideration"
    else "Unknown"
  | _ => "Unknown"

/-- The glossary list for "No Further Action", written out from the spec
(GLOSSARY section) for the refinement comparison of claim C2. -/
def glossaryNoFurtherAction : List String :=
  ["Unable to prosecute suspect",
   "Investigation complete; no suspect identified",
   "Status update unavailable"]

/-- The glossary list for "Non-criminal Outcome", from the spec. -/
def glossaryNonCriminal : List String :=
  ["Local resolution",
   "Offender given a caution",
   "Action to be taken by another organisation",
   "Awaiting court outcome"]

/-- The glossary list for "Public Interest Consideration", from the spec. -/
def glossaryPublicInterest : List String :=
  ["Further investigation is not in the public interest",
   "Further action is not in the public interest",
   "Formal action is not in the public interest"]

/-! ## Staging transforms (src/pipeline.py lines 34–99) -/

/-- The selection `df_outcomes[["Crime ID", "Outcome type"]]` as key/value pairs, one per
outcomes row (the selection that `merge_data` joins against). -/
def selPairs (dfo : Df) : List (Option Val × Option Val) :=
  dfo.rows.map (fun r => (cellAt dfo.cols r "Crime ID", cellAt dfo.cols r "Outcome type"))

/-- The outcome rows whose `Crime ID` equals the key `k`.  pandas `merge`
matches `NaN` keys with `NaN` keys, which is the `none = none` case of
this decidable equality. -/
def matchesOf (dfo : Df) (k : Option Val) : List (Option Val × Option Val) :=
  (selPairs dfo).filter (fun p => decide (p.1 = k))

/-- The block of merged rows contributed by one incident row in a left
join: the row once with a null `Outcome type` when nothing matches,
otherwise once per matching outcome row. -/
def mergeOneRow (dfo : Df) (cols : List String) (r : Row) : List Row :=
  let ms := matchesOf dfo (cellAt cols r "Crime ID")
  if ms = [] then [r ++ [none]] else ms.map (fun p => r ++ [p.2])

/-- Function `merge_data(df, df_outcomes)`:
`pd.merge(df, df_outcomes[["Crime ID", "Outcome type"]], how="left", on="Crime ID")`.
Raises `KeyError` when the selected columns are absent from the outcomes
table or the join key is absent from the left table.  When the left table
already has an `Outcome type` column, pandas disambiguates the overlap
with the `_x`/`_y` suffixes; `mergedCols` computes the resulting column
labels. -/
def mergedCols (cols : List String) : List String :=
  if "Outcome type" ∈ cols then
    cols.map (fun c => if c = "Outcome type" then "Outcome type_x" else c)
      ++ ["Outcome type_y"]
  else cols ++ ["Outcome type"]

/-- Body of `merge_data`: check the labels, then join row blocks. -/
def merge_data (df dfo : Df) : Except String Df :=
  if "Crime ID" ∈ dfo.cols ∧ "Outcome type" ∈ dfo.cols then
    if "Crime ID" ∈ df.cols then
      .ok ⟨mergedCols df.cols, df.rows.flatMap (mergeOneRow dfo df.cols)⟩
    else .error "KeyError: Crime ID"
  else .error "KeyError: outcomes selection"

/-- Function `finaloutcome(df)`: row-wise
`row["Outcome type"] if pd.notnull(row["Outcome type"]) else row["Last outcome category"]`,
assigned to a new `Final Outcome` column.  The per-row lambda raises
`KeyError` exactly when one of the two columns is missing and at least one
row exists (on an empty frame the lambda is never invoked). -/
def finaloutcome (df : Df) : Except String Df :=
  if df.rows ≠ [] ∧ ("Outcome type" ∉ df.cols ∨ "Last outcome category" ∉ df.cols) then
    .error "KeyError: finaloutcome"
  else
    .ok (setColDf df "Final Outcome" (df.rows.map (fun r =>
      if (cellAt df.cols r "Outcome type").isSome
      then cellAt df.cols r "Outcome type"
      else cellAt df.cols r "Last outcome category")))

/-- Function `apply_categorization(df)`:
`df["Broad Outcome Category"] = df["Final Outcome"].apply(categorize_outcome)`.
Raises `KeyError` when `Final Outcome` is absent. -/
def apply_categorization (df : Df) : Except String Df :=
  if "Final Outcome" ∈ df.cols then
    .ok (setColDf df "Broad Outcome Category"
      (df.rows.map (fun r =>
        some (Val.str (categorize_outcome (cellAt df.cols r "Final Outcome"))))))
  else .error "KeyError: Final Outcome"

/-- The `cols_to_delete` list of `del_values_street`. -/
def cols_to_delete : List String :=
  ["Reported by", "Context", "Location", "Last outcome category",
   "Outcome type", "Final Outcome"]

/-- Function `del_values_street(df)`: `df.drop(columns=cols_to_delete)`, which
raises `KeyError` when any listed label is absent. -/
def del_values_street (df : Df) : Except String Df :=
  if ∀ c ∈ cols_to_delete, c ∈ df.cols then
    .ok ⟨df.cols.filter (fun c => decide (c ∉ cols_to_delete)),
         df.rows.map (fun r =>
           ((df.cols.zip r).filter (fun p => decide (p.1 ∉ cols_to_delete))).map (·.2))⟩
  else .error "KeyError: drop"

/-! ## Filesystem, logging and the writing stage wrappers -/

/-- Content of a file on disk: a parseable table or malformed text. -/
inductive FileContent where
  | table : Df → FileContent
  | malformed : FileContent
deriving DecidableEq, Repr

/-- The filesystem: newest-first association list from path to content. -/
abbrev FileSys := List (String × FileContent)

/-- Path lookup (newest write wins). -/
def lookupFs : FileSys → String → Option FileContent
  | [], _ => none
  | (q, c) :: t, p => if q = p then some c else lookupFs t p

/-- Write a file (prepend; `lookupFs` sees the newest entry). -/
def fsWrite (fs : FileSys) (p : String) (c : FileContent) : FileSys :=
  (p, c) :: fs

/-- A log line at one of the three severities used by the script. -/
inductive LogEvent where
  | info : String → LogEvent
  | error : String → LogEvent
  | critical : String → LogEvent
deriving DecidableEq, Repr

/-- Function `ingest_data(file_path)`: returns `None` after an error log when the
file is missing, `None` after an error log when `pd.read_csv` raises a
`ValueError` (malformed content), and the parsed table otherwise.  It
never raises past its boundary for these cases. -/
def ingest_data (fs : FileSys) (file_path : String) : Option Df × List LogEvent :=
  match lookupFs fs file_path with
  | none =>
    (none, [.info ("Starting data ingestion from " ++ file_path),
            .error ("File not found: " ++ file_path)])
  | some .malformed =>
    (none, [.info ("Starting data ingestion from " ++ file_path),
            .error ("Error reading the CSV file " ++ file_path)])
  | some (.table d) =>
    (some d, [.info ("Starting data ingestion from " ++ file_path),
              .info ("Data ingestion from " ++ file_path ++ " completed successfully")])

/-- The four transform steps of `stage_data`, composed with exception
propagation (the body of its `try`). -/
def stagePipe (df dfo : Df) : Except String Df :=
  (merge_data df dfo).bind (fun m =>
    (finaloutcome m).bind (fun f =>
      (apply_categorization f).bind del_values_street))

/-- Function `stage_data(df, df_outcomes, output_file)`: run the four transforms
and write the result; any exception is caught and logged, leaving the
filesystem untouched. -/
def stage_data (df dfo : Df) (output_file : String) (fs : FileSys) :
    FileSys × List LogEvent :=
  match stagePipe df dfo with
  | .ok d =>
    (fsWrite fs output_file (.table d),
     [.info "Starting data staging", .info "Data staging completed successfully"])
  | .error e =>
    (fs, [.info "Starting data staging", .error ("Error during data staging: " ++ e)])

/-! ## Primary transform (src/pipeline.py lines 100–127) -/

/-- Elementwise pandas addition on numeric cells: `NaN` when either
operand is missing, the exact sum otherwise. -/
def addCell : Option Val → Option Val → Option Val
  | some (Val.num a), some (Val.num b) => some (Val.num (a + b))
  | _, _ => none

/-- A cell a numeric pandas series may hold: a number or `NaN`. -/
def isNumericCell : Option Val → Bool
  | some (Val.str _) => false
  | _ => true

/-- Function `primary_transformations(df)`: `astype("category")` on `Crime type`
and `Broad Outcome Category` (a dtype change only — value-preserving,
hence the identity here, but a `KeyError` when either column is absent),
then `df["Location Sum"] = df["Latitude"] + df["Longitude"]` exactly when
both columns exist.  Series addition over non-numeric coordinate columns
(a `TypeError` in pandas) is modelled as an error. -/
def primary_transformations (df : Df) : Except String Df :=
  if "Crime type" ∈ df.cols then
    if "Broad Outcome Category" ∈ df.cols then
      if "Latitude" ∈ df.cols ∧ "Longitude" ∈ df.cols then
        if (colVals df "Latitude").all isNumericCell ∧
           (colVals df "Longitude").all isNumericCell then
          .ok (setColDf df "Location Sum"
            (List.zipWith addCell (colVals df "Latitude") (colVals df "Longitude")))
        else .error "TypeError: non-numeric coordinates"
      else .ok df
    else .error "KeyError: Broad Outcome Category"
  else .error "KeyError: Crime type"

/-- Function `primary_data(df, output_file)`: transform and write, catching and
logging every exception.  The orchestrator may pass `None` (a failed
re-ingest), in which case `primary_transformations(None)` raises a
`TypeError` that is caught here. -/
def primary_data (d : Option Df) (output_file : String) (fs : FileSys) :
    FileSys × List LogEvent :=
  match d with
  | none =>
    (fs, [.info "Starting primary data transformation",
          .error "Error during primary data transformation: TypeError: NoneType"])
  | some df =>
    match primary_transformations df with
    | .ok d2 =>
      (fsWrite fs output_file (.table d2),
       [.info "Starting primary data transformation",
        .info "Primary data transformation completed successfully"])
    | .error e =>
      (fs, [.info "Starting primary data transformation",
            .error ("Error during primary data transformation: " ++ e)])

/-! ## Reporting aggregation (src/pipeline.py lines 129–151) -/

/-- The grouping keys of `df.groupby(["Crime type", "Broad Outcome Category"])`:
one key pair per row, rows with a `NaN` in either key column dropped
(pandas `groupby` default `dropna=True`). -/
def groupKeys (df : Df) : List (Val × Val) :=
  df.rows.filterMap (fun r =>
    match cellAt df.cols r "Crime type", cellAt df.cols r "Broad Outcome Category" with
    | some a, some b => some (a, b)
    | _, _ => none)

/-- Function `reporting_aggregation(df)`:
`df.groupby(["Crime type", "Broad Outcome Category"]).size().reset_index(name="Count")`.
One output row per observed distinct key pair with its row count.
(pandas sorts the groups; the emitted row order is abstracted to
first-occurrence order here — no claim concerns the order.)  Raises
`KeyError` when either grouping column is absent. -/
def reporting_aggregation (df : Df) : Except String Df :=
  if "Crime type" ∈ df.cols ∧ "Broad Outcome Category" ∈ df.cols then
    .ok ⟨["Crime type", "Broad Outcome Category", "Count"],
         (groupKeys df).dedup.map (fun k =>
           [some k.1, some k.2, some (Val.num ((groupKeys df).count k : ℚ))])⟩
  else .error "KeyError: groupby"

/-- Function `reporting_data(df, output_file)`: aggregate and write, catching and
logging every exception; `None` input (failed re-ingest) raises inside
the `try` and is caught. -/
def reporting_data (d : Option Df) (output_file : String) (fs : FileSys) :
    FileSys × List LogEvent :=
  match d with
  | none =>
    (fs, [.info "Starting reporting data aggregation",
          .error "Error during reporting data aggregation: TypeError: NoneType"])
  | some df =>
    match reporting_aggregation df with
    | .ok d2 =>
      (fsWrite fs output_file (.table d2),
       [.info "Starting reporting data aggregation",
        .info "Reporting data aggregation completed successfully"])
    | .error e =>
      (fs, [.info "Starting reporting data aggregation",
            .error ("Error during reporting data aggregation: " ++ e)])

/-! ## Orchestrator (src/pipeline.py lines 153–167) -/

/-- Python `os.path.join("./", f)` for the path constants of the script. -/
def LOCAL_DATA_PATH : String := "./"

/-- Raw incidents CSV path. -/
def RAW_DATA_FILE : String := LOCAL_DATA_PATH ++ "2022-01-cheshire-street.csv"

/-- Outcomes CSV path. -/
def OUTCOMES_DATA_FILE : String := LOCAL_DATA_PATH ++ "2022-01-cheshire-outcomes.csv"

/-- Staged output path. -/
def STAGED_DATA_FILE : String := LOCAL_DATA_PATH ++ "staged_cheshire_street.csv"

/-- Primary output path. -/
def PRIMARY_DATA_FILE : String := LOCAL_DATA_PATH ++ "primary_cheshire_street.csv"

/-- Reporting output path. -/
def REPORTING_DATA_FILE : String := LOCAL_DATA_PATH ++ "reporting_cheshire_street.csv"

/-- Function `main()`: ingest both raw files; when both parse, run the three
stages with a re-ingest of each stage's freshly written output; in every
case log `"Pipeline execution completed successfully"` at the end.  The
top-level `try`/`except` is total in this model (each stage already
catches internally), so `main` always returns normally.  (Named
`pipelineMain` because Lean reserves `main` for program entry points.) -/
def pipelineMain (fs : FileSys) : FileSys × List LogEvent :=
  let p1 := ingest_data fs RAW_DATA_FILE
  let p2 := ingest_data fs OUTCOMES_DATA_FILE
  match p1.1, p2.1 with
  | some df, some dfo =>
    let s := stage_data df dfo STAGED_DATA_FILE fs
    let p3 := ingest_data s.1 STAGED_DATA_FILE
    let pr := primary_data p3.1 PRIMARY_DATA_FILE s.1
    let p4 := ingest_data pr.1 PRIMARY_DATA_FILE
    let rp := reporting_data p4.1 REPORTING_DATA_FILE pr.1
    (rp.1, [LogEvent.info "Pipeline execution started"] ++ p1.2 ++ p2.2 ++ s.2
           ++ p3.2 ++ pr.2 ++ p4.2 ++ rp.2
           ++ [LogEvent.info "Pipeline execution completed successfully"])
  | _, _ =>
    (fs, [LogEvent.info "Pipeline execution started"] ++ p1.2 ++ p2.2
         ++ [LogEvent.info "Pipeline execution completed successfully"])

/-! ## Module-level behaviour of the script (src/pipeline.py lines 1–172)

Python compiles an entire module before executing any of its statements,
so a lexical/syntax error anywhere in the file prevents every top-level
statement from running — both when the file is run as a script and when
it is imported.  `scanChars` below is a *necessary* lexical condition of
Python source: outside string literals and comments, the character `!`
is legal only as part of the `!=` operator (a lone `!` is no Python
token), so a module on which the scan fails is rejected by CPython's
tokenizer with a `SyntaxError` at compile time. -/

/-- Lexical scanning mode: plain code, inside a `"…"` string, or inside
a `"""…"""` string. -/
inductive LexMode where
  | code : LexMode
  | dq : LexMode
  | tdq : LexMode
deriving DecidableEq, Repr

/-- Scan one physical line.  `none` means a lexical error that CPython's
tokenizer also rejects: a lone `!` outside strings and comments, or an
unterminated single-line string. -/
def scanChars : LexMode → List Char → Option LexMode
  | .code, [] => some .code
  | .code, '"' :: '"' :: '"' :: rest => scanChars .tdq rest
  | .code, '"' :: rest => scanChars .dq rest
  | .code, '#' :: _ => some .code
  | .code, '!' :: '=' :: rest => scanChars .code rest
  | .code, '!' :: _ => none
  | .code, _ :: rest => scanChars .code rest
  | .dq, [] => none
  | .dq, '\\' :: _ :: rest => scanChars .dq rest
  | .dq, '"' :: rest => scanChars .code rest
  | .dq, _ :: rest => scanChars .dq rest
  | .tdq, '"' :: '"' :: '"' :: rest => scanChars .code rest
  | .tdq, [] => some .tdq
  | .tdq, _ :: rest => scanChars .tdq rest

/-- Scan a whole module, line by line; `true` when no definite lexical
error was found and every string literal is closed at end of file. -/
def scanModule : LexMode → List String → Bool
  | m, [] => decide (m = LexMode.code)
  | m, l :: ls =>
    match scanChars m l.data with
    | some m2 => scanModule m2 ls
    | none => false

/-- The 172 lines of `src/pipeline.py`, transcribed verbatim except that
Python single-quoted string literals are written with double quotes
(lexically interchangeable in Python, and identical for `scanChars`). -/
def pipelineSourceLines : List String :=
  ["import os",
    "import logging",
    "import pandas as pd",
    "",
    "# Constants",
    "LOCAL_DATA_PATH = \"./\"",
    "LOG_FILE = os.path.join(LOCAL_DATA_PATH, \"pipeline.log\")",
    "RAW_DATA_FILE = os.path.join(LOCAL_DATA_PATH, \"2022-01-cheshire-street.csv\")",
    "OUTCOMES_DATA_FILE = os.path.join(LOCAL_DATA_PATH, \"2022-01-cheshire-outcomes.csv\")",
    "STAGED_DATA_FILE = os.path.join(LOCAL_DATA_PATH, \"staged_cheshire_street.csv\")",
    "PRIMARY_DATA_FILE = os.path.join(LOCAL_DATA_PATH, \"primary_cheshire_street.csv\")",
    "REPORTING_DATA_FILE = os.path.join(LOCAL_DATA_PATH, \"reporting_cheshire_street.csv\")",
    "",
    "",
    "",
    "",
    "def ingest_data(file_path):",
    "    \"\"\"",
    "    Ingest raw data from a CSV file.",
    "    \"\"\"",
    "    logging.info(f\"Starting data ingestion from {file_path}\")",
    "    if not os.path.exists(file_path):",
    "        logging.error(f\"File not found: {file_path}\")",
    "        return None",
    "",
    "    try:",
    "        df = pd.read_csv(file_path)",
    "        logging.info(f\"Data ingestion from {file_path} completed successfully\")",
    "        return df",
    "    except ValueError as e:",
    "        logging.error(f\"Error reading the CSV file {file_path}: {e}\")",
    "        return None",
    "",
    "def merge_data(df, df_outcomes):",
    "    \"\"\"",
    "    Merge the main data with outcomes data on \"Crime ID\".",
    "    \"\"\"",
    "    return pd.merge(df, df_outcomes[[\"Crime ID\", \"Outcome type\"]], how=\"left\", on=\"Crime ID\")",
    "",
    "def finaloutcome(df):",
    "    \"\"\"",
    "    Create \"Final Outcome\" column based on \"Outcome type\" and \"Last outcome category\".",
    "    \"\"\"",
    "    df[\"Final Outcome\"] = df.apply(",
    "        lambda row: row[\"Outcome type\"] if pd.notnull(row[\"Outcome type\"]) else row[\"Last outcome category\"],",
    "        axis=1",
    "    )",
    "    return df",
    "",
    "def categorize_outcome(outcome):",
    "    if outcome in [\"Unable to prosecute suspect\", ",
    "                   \"Investigation complete; no suspect identified\", ",
    "                   \"Status update unavailable\"]:",
    "        return \"No Further Action\"",
    "    elif outcome in [\"Local resolution\", ",
    "                     \"Offender given a caution\", ",
    "                     \"Action to be taken by another organisation\", ",
    "                     \"Awaiting court outcome\"]:",
    "        return \"Non-criminal Outcome\"",
    "    elif outcome in [\"Further investigation is not in the public interest\", ",
    "                     \"Further action is not in the public interest\", ",
    "                     \"Formal action is not in the public interest\"]:",
    "        return \"Public Interest Consideration\"",
    "    else:",
    "        return \"Unknown\"  # Or any other category for unknown outcomes",
    "",
    "def apply_categorization(df):",
    "    \"\"\"",
    "    Apply categorization to \"Final Outcome\" column.",
    "    \"\"\"",
    "    df[\"Broad Outcome Category\"] = df[\"Final Outcome\"].apply(categorize_outcome)",
    "    return df",
    "",
    "def del_values_street(df):",
    "    \"\"\"",
    "    Delete unnecessary columns from the DataFrame.",
    "    \"\"\"",
    "    cols_to_delete = [\"Reported by\", \"Context\", \"Location\", \"Last outcome category\", \"Outcome type\", \"Final Outcome\"]",
    "    df.drop(columns=cols_to_delete, inplace=True)",
    "    return df",
    "",
    "def stage_data(df, df_outcomes, output_file):",
    "    \"\"\"",
    "    Store the data to a CSV file for staging.",
    "    \"\"\"",
    "    logging.info(\"Starting data staging\")",
    "    try:",
    "        # Apply transformations",
    "        df = merge_data(df, df_outcomes)",
    "        df = finaloutcome(df)",
    "        df = apply_categorization(df)",
    "        df = del_values_street(df)",
    "",
    "        # Save to CSV",
    "        df.to_csv(output_file, index=False)",
    "        logging.info(\"Data staging completed successfully\")",
    "    except Exception as e:",
    "        logging.error(f\"Error during data staging: {e}\")",
    "",
    "def primary_transformations(df):",
    "    \"\"\"",
    "    Primary Storage Layer: Apply primary transformations to the data.",
    "    \"\"\"",
    "    # Example transformation: Convert some columns to categorical data type",
    "    df[\"Crime type\"] = df[\"Crime type\"].astype(\"category\")",
    "    df[\"Broad Outcome Category\"] = df[\"Broad Outcome Category\"].astype(\"category\")",
    "",
    "    # Example transformation: Create a new column by summing existing columns",
    "    if \"Latitude\" in df.columns and \"Longitude\" in df.columns:",
    "        df[\"Location Sum\"] = df[\"Latitude\"] + df[\"Longitude\"]",
    "",
    "    return df",
    "",
    "def primary_data(df, output_file):",
    "    \"\"\"",
    "    Primary Storage Layer: Store the primary transformed data to a CSV file.",
    "    \"\"\"",
    "    logging.info(\"Starting primary data transformation\")",
    "    try:",
    "        # Apply primary transformations",
    "        df = primary_transformations(df)",
    "",
    "        # Save to CSV",
    "        df.to_csv(output_file, index=False)",
    "        logging.info(\"Primary data transformation completed successfully\")",
    "    except Exception as e:",
    "        logging.error(f\"Error during primary data transformation: {e}\")",
    "",
    "def reporting_aggregation(df):",
    "    \"\"\"",
    "    Reporting Layer: Aggregate data for reporting purposes.",
    "    \"\"\"",
    "    # Example aggregation: Count of crimes by crime type and broad outcome category",
    "    agg_df = df.groupby([\"Crime type\", \"Broad Outcome Category\"]).size().reset_index(name=\"Count\")",
    "",
    "    return agg_df",
    "",
    "def reporting_data(df, output_file):",
    "    \"\"\"",
    "    Reporting Layer: Store the aggregated reporting data to a CSV file.",
    "    \"\"\"",
    "    logging.info(\"Starting reporting data aggregation\")",
    "    try:",
    "        # Apply aggregation",
    "        agg_df = reporting_aggregation(df)",
    "",
    "        # Save to CSV",
    "        agg_df.to_csv(output_file, index=False)",
    "        logging.info(\"Reporting data aggregation completed successfully\")",
    "    except Exception as e:",
    "        logging.error(f\"Error during reporting data aggregation: {e}\")",
    "",
    "def main():",
    "    logging.info(\"Pipeline execution started\")",
    "    try:",
    "        df = ingest_data(RAW_DATA_FILE)",
    "        df_outcomes = ingest_data(OUTCOMES_DATA_FILE)",
    "        ",
    "        if df is not None and df_outcomes is not None:",
    "            stage_data(df, df_outcomes, STAGED_DATA_FILE)",
    "            df_staged = ingest_data(STAGED_DATA_FILE)  # Read the staged data for further processing",
    "            primary_data(df_staged, PRIMARY_DATA_FILE)",
    "            df_primary = ingest_data(PRIMARY_DATA_FILE)  # Read the primary data for reporting",
    "            reporting_data(df_primary, REPORTING_DATA_FILE)",
    "        logging.info(\"Pipeline execution completed successfully\")",
    "    except Exception as e:",
    "        logging.critical(f\"Pipeline execution failed: {e}\")",
    "",
    "if __name__ == \"__main__\":",
    "    main()",
    "",
    "print( Hello Noah! )"]

/-- Outcome of invoking the Python interpreter on a module: a
compile-time `SyntaxError` (filesystem untouched, nothing executed), or
a completed execution with its final filesystem and log. -/
inductive ScriptOutcome where
  | syntaxError : FileSys → ScriptOutcome
  | completed : FileSys → List LogEvent → ScriptOutcome
deriving DecidableEq

/-- Running `pipeline.py`: CPython first compiles the whole module; only
if that succeeds do the top-level statements run — the defs bind, and
under the `__main__` guard (`asScript = true`) `main()` executes the
pipeline.  A compile failure executes nothing and writes nothing. -/
def runScript (asScript : Bool) (fs : FileSys) : ScriptOutcome :=
  if scanModule LexMode.code pipelineSourceLines then
    if asScript then
      let r := pipelineMain fs
      .completed r.1 r.2
    else .completed fs []
  else .syntaxError fs

/-- Witness input for C3: one merged row with a non-null outcome type,
one with a null outcome type. -/
def c3Df : Df :=
  ⟨["Crime ID", "Last outcome category", "Outcome type"],
   [[some (Val.str "A1"), some (Val.str "Under investigation"), some (Val.str "Local resolution")],
    [some (Val.str "A2"), some (Val.str "Under investigation"), none]]⟩

/-- The value of `finaloutcome c3Df`, for the C3 witness. -/
def c3Out : Df :=
  ⟨["Crime ID", "Last outcome category", "Outcome type", "Final Outcome"],
   [[some (Val.str "A1"), some (Val.str "Under investigation"),
     some (Val.str "Local resolution"), some (Val.str "Local resolution")],
    [some (Val.str "A2"), some (Val.str "Under investigation"), none,
     some (Val.str "Under investigation")]]⟩

/-- Witness incidents table for C5: row `A` matches twice, row `B` never. -/
def c5Df : Df := ⟨["Crime ID"], [[some (Val.str "A")], [some (Val.str "B")]]⟩

/-- Witness outcomes table for C5. -/
def c5Dfo : Df :=
  ⟨["Crime ID", "Outcome type"],
   [[some (Val.str "A"), some (Val.str "Local resolution")],
    [some (Val.str "A"), some (Val.str "Status update unavailable")]]⟩

/-- The value of `merge_data c5Df c5Dfo`, for the C5 witness. -/
def c5Merged : Df :=
  ⟨["Crime ID", "Outcome type"],
   [[some (Val.str "A"), some (Val.str "Local resolution")],
    [some (Val.str "A"), some (Val.str "Status update unavailable")],
    [some (Val.str "B"), none]]⟩

/-- Witness incidents table for C7/C10: the six-column shape the raw
street file has (minus the two columns staging itself creates). -/
def c7Df : Df :=
  ⟨["Crime ID", "Crime type", "Last outcome category", "Reported by", "Context", "Location"],
   [[some (Val.str "A1"), some (Val.str "Burglary"), some (Val.str "Under investigation"),
     some (Val.str "Cheshire Constabulary"), none, some (Val.str "On or near X")]]⟩

/-- Witness outcomes table for C7/C10. -/
def c7Dfo : Df :=
  ⟨["Crime ID", "Outcome type"],
   [[some (Val.str "A1"), some (Val.str "Unable to prosecute suspect")]]⟩

/-- The value of `stagePipe c7Df c7Dfo`, for the C7 witness. -/
def c7Staged : Df :=
  ⟨["Crime ID", "Crime type", "Broad Outcome Category"],
   [[some (Val.str "A1"), some (Val.str "Burglary"), some (Val.str "No Further Action")]]⟩

/-- Witness for C10 (amended): dropping `c7Df` down to a table without
`Context` makes staging leave the filesystem untouched. -/
def c10Df : Df :=
  ⟨["Crime ID", "Crime type", "Last outcome category", "Reported by", "Location"],
   [[some (Val.str "A1"), some (Val.str "Burglary"), some (Val.str "Under investigation"),
     some (Val.str "Cheshire Constabulary"), some (Val.str "On or near X")]]⟩

/-- Witness input for C6: numeric coordinates present. -/
def c6Df : Df :=
  ⟨["Crime type", "Broad Outcome Category", "Latitude", "Longitude"],
   [[some (Val.str "Theft"), some (Val.str "Unknown"),
     some (Val.num 1), some (Val.num 2)]]⟩

/-- The value of `primary_transformations c6Df`, for the C6 witness. -/
def c6Out : Df :=
  ⟨["Crime type", "Broad Outcome Category", "Latitude", "Longitude", "Location Sum"],
   [[some (Val.str "Theft"), some (Val.str "Unknown"),
     some (Val.num 1), some (Val.num 2),
     addCell (some (Val.num 1)) (some (Val.num 2))]]⟩

/-- The `Count` cell of an emitted reporting row (third column), read as
an exact number; `0` for anything malformed. -/
def rowCountQ (r : Row) : ℚ :=
  match r.get? 2 with
  | some (some (Val.num q)) => q
  | _ => 0

/-- Sum of the `Count` column over all rows of a reporting table. -/
def sumCounts (df : Df) : ℚ := (df.rows.map rowCountQ).sum

/-- Input refuting C4 as stated: one row whose `Crime type` is null. -/
def c4Df : Df :=
  ⟨["Crime type", "Broad Outcome Category"], [[none, some (Val.str "Unknown")]]⟩

/-- Witness input for the amended C4: both keys non-null everywhere. -/
def c4GoodDf : Df :=
  ⟨["Crime type", "Broad Outcome Category"],
   [[some (Val.str "Theft"), some (Val.str "No Further Action")],
    [some (Val.str "Theft"), some (Val.str "No Further Action")]]⟩

/-- The value of `reporting_aggregation c4GoodDf`, for the C4 witness. -/
def c4AggOut : Df :=
  ⟨["Crime type", "Broad Outcome Category", "Count"],
   [[some (Val.str "Theft"), some (Val.str "No Further Action"),
     some (Val.num ((2 : ℕ) : ℚ))]]⟩

/-! # Theorems -/

/-- C2: `categorize_outcome` is total and always returns one of the four
fixed labels; the three code-level label sets are pairwise disjoint and
coincide with the Glossary lists; every member of each list maps to its
category (in particular "Unable to prosecute suspect" to
"No Further Action"); null, numbers and unlisted strings map to
"Unknown". -/
theorem categorize_outcome_total_and_correct :
    (∀ v : Option Val,
      categorize_outcome v = "No Further Action" ∨
      categorize_outcome v = "Non-criminal Outcome" ∨
      categorize_outcome v = "Public Interest Consideration" ∨
      categorize_outcome v = "Unknown") ∧
    (∀ s ∈ noFurtherActionOutcomes, s ∉ nonCriminalOutcomes ∧ s ∉ publicInterestOutcomes) ∧
    (∀ s ∈ nonCriminalOutcomes, s ∉ publicInterestOutcomes) ∧
    noFurtherActionOutcomes = glossaryNoFurtherAction ∧
    nonCriminalOutcomes = glossaryNonCriminal ∧
    publicInterestOutcomes = glossaryPublicInterest ∧
    (∀ s ∈ noFurtherActionOutcomes,
      categorize_outcome (some (Val.str s)) = "No Further Action") ∧
    (∀ s ∈ nonCriminalOutcomes,
      categorize_outcome (some (Val.str s)) = "Non-criminal Outcome") ∧
    (∀ s ∈ publicInterestOutcomes,
      categorize_outcome (some (Val.str s)) = "Public Interest Consideration") ∧
    categorize_outcome none = "Unknown" ∧
    (∀ q : ℚ, categorize_outcome (some (Val.num q)) = "Unknown") ∧
    (∀ s : String, s ∉ noFurtherActionOutcomes → s ∉ nonCriminalOutcomes →
      s ∉ publicInterestOutcomes → categorize_outcome (some (Val.str s)) = "Unknown") := by
  refine ⟨?_, ?_, ?_, rfl, rfl, rfl, ?_, ?_, ?_, rfl, fun q => rfl, ?_⟩
  · intro v
    match v with
    | none => right; right; right; rfl
    | some (Val.num q) => right; right; right; rfl
    | some (Val.str s) =>
      by_cases h1 : s ∈ noFurtherActionOutcomes
      · left; simp [categorize_outcome, h1]
      · by_cases h2 : s ∈ nonCriminalOutcomes
        · right; left; simp [categorize_outcome, h1, h2]
        · by_cases h3 : s ∈ publicInterestOutcomes
          · right; right; left; simp [categorize_outcome, h1, h2, h3]
          · right; right; right; simp [categorize_outcome, h1, h2, h3]
  · decide
  · decide
  · decide
  · decide
  · decide
  · intro s h1 h2 h3
    simp [categorize_outcome, h1, h2, h3]

/-- Witness for C2 at concrete inputs: the listed outcome
"Unable to prosecute suspect" is categorized as "No Further Action". -/
theorem categorize_outcome_total_and_correct_witness :
    categorize_outcome (some (Val.str "Unable to prosecute suspect")) = "No Further Action" :=
  categorize_outcome_total_and_correct.2.2.2.2.2.2.1
    "Unable to prosecute suspect" (by decide)

/-! ## Helper lemmas about the table primitives -/

theorem colIdx_lt {cols : List String} {c : String} {i : Nat}
    (h : colIdx cols c = some i) : i < cols.length := by
  induction cols generalizing i with
  | nil => simp [colIdx] at h
  | cons a t ih =>
    by_cases ha : a = c
    · simp only [colIdx, if_pos ha, Option.some.injEq] at h
      simp [← h]
    · simp only [colIdx, if_neg ha, Option.map_eq_some'] at h
      obtain ⟨j, hj, rfl⟩ := h
      have := ih hj
      simp
      omega

theorem colIdx_eq_none {cols : List String} {c : String} :
    colIdx cols c = none ↔ c ∉ cols := by
  induction cols with
  | nil => simp [colIdx]
  | cons a t ih =>
    by_cases ha : a = c
    · simp [colIdx, ha]
    · simp [colIdx, ha, ih, Ne.symm ha]

theorem colIdx_append_fresh {cols : List String} {c : String} (h : c ∉ cols) :
    colIdx (cols ++ [c]) c = some cols.length := by
  induction cols with
  | nil => simp [colIdx]
  | cons a t ih =>
    have ha : a ≠ c := fun hac => h (hac ▸ List.mem_cons_self a t)
    have ht : c ∉ t := fun hct => h (List.mem_cons_of_mem a hct)
    simp [colIdx, ha, ih ht]

theorem get?_set_self {α : Type} {l : List α} {i : Nat} (v : α) (h : i < l.length) :
    (l.set i v).get? i = some v := by
  induction l generalizing i with
  | nil => simp at h
  | cons a t ih =>
    cases i with
    | zero => rfl
    | succ j => exact ih (by simpa using h)

theorem get?_append_len {α : Type} (l : List α) (v : α) :
    (l ++ [v]).get? l.length = some v := by
  induction l with
  | nil => rfl
  | cons a t ih => simpa using ih

theorem get?_zip {α β : Type} {as : List α} {bs : List β} {i : Nat} {a : α} {b : β}
    (ha : as.get? i = some a) (hb : bs.get? i = some b) :
    (as.zip bs).get? i = some (a, b) := by
  induction as generalizing bs i with
  | nil => simp at ha
  | cons x xs ih =>
    cases bs with
    | nil => simp at hb
    | cons y ys =>
      cases i with
      | zero =>
        simp only [List.get?] at ha hb
        cases ha; cases hb; rfl
      | succ j => exact ih ha hb

theorem get?_zipWith {α β γ : Type} (f : α → β → γ) {as : List α} {bs : List β}
    {i : Nat} {a : α} {b : β}
    (ha : as.get? i = some a) (hb : bs.get? i = some b) :
    (List.zipWith f as bs).get? i = some (f a b) := by
  induction as generalizing bs i with
  | nil => simp at ha
  | cons x xs ih =>
    cases bs with
    | nil => simp at hb
    | cons y ys =>
      cases i with
      | zero =>
        simp only [List.get?] at ha hb
        cases ha; cases hb; rfl
      | succ j => exact ih ha hb

theorem length_le_sum_of_one_le {l : List Nat} (h : ∀ x ∈ l, 1 ≤ x) :
    l.length ≤ l.sum := by
  induction l with
  | nil => simp
  | cons a t ih =>
    have ha := h a (List.mem_cons_self a t)
    have ht := ih (fun x hx => h x (List.mem_cons_of_mem a hx))
    simp only [List.length_cons, List.sum_cons]
    omega

theorem filterMap_length_of_some {α β : Type} {f : α → Option β} {l : List α}
    (h : ∀ a ∈ l, (f a).isSome) : (l.filterMap f).length = l.length := by
  induction l with
  | nil => rfl
  | cons a t ih =>
    have ha := h a (List.mem_cons_self a t)
    obtain ⟨b, hb⟩ := Option.isSome_iff_exists.mp ha
    rw [List.filterMap_cons, hb]
    simp [ih (fun x hx => h x (List.mem_cons_of_mem a hx))]

theorem exceptBind_ok {α β : Type} {x : Except String α} {f : α → Except String β} {b : β}
    (h : x.bind f = .ok b) : ∃ a, x = .ok a ∧ f a = .ok b := by
  cases x with
  | ok a => exact ⟨a, rfl, h⟩
  | error e => simp [Except.bind] at h

theorem setColDf_cols_mem (df : Df) (c : String) (vals : List (Option Val)) :
    c ∈ (setColDf df c vals).cols := by
  unfold setColDf
  cases h : colIdx df.cols c with
  | some i =>
    simp only
    by_contra hc
    rw [colIdx_eq_none.mpr hc] at h
    simp at h
  | none => simp

theorem setColDf_cols_other {df : Df} {c d : String} {vals : List (Option Val)}
    (hne : d ≠ c) : d ∈ (setColDf df c vals).cols ↔ d ∈ df.cols := by
  unfold setColDf
  cases h : colIdx df.cols c with
  | some i => simp
  | none => simp [hne]

theorem setColDf_rows_length {df : Df} {c : String} {vals : List (Option Val)}
    (h : vals.length = df.rows.length) :
    (setColDf df c vals).rows.length = df.rows.length := by
  unfold setColDf
  cases colIdx df.cols c <;> simp [List.length_zip, h]

theorem setColDf_cell {df : Df} {c : String} {vals : List (Option Val)} {i : Nat}
    {r : Row} {v : Option Val}
    (hwf : Wf df) (hr : df.rows.get? i = some r) (hv : vals.get? i = some v) :
    ∃ r2, (setColDf df c vals).rows.get? i = some r2 ∧
      cellAt (setColDf df c vals).cols r2 c = v := by
  have hrlen : r.length = df.cols.length := hwf r (List.get?_mem hr)
  unfold setColDf
  cases h : colIdx df.cols c with
  | some j =>
    refine ⟨r.set j v, ?_, ?_⟩
    · simp only [List.get?_map, get?_zip hr hv, Option.map_some']
    · have hj : j < r.length := hrlen ▸ colIdx_lt h
      simp [cellAt, getCellQ, h, hj]
  | none =>
    refine ⟨r ++ [v], ?_, ?_⟩
    · simp only [List.get?_map, get?_zip hr hv, Option.map_some']
    · have hfresh := colIdx_append_fresh (colIdx_eq_none.mp h)
      simp [cellAt, getCellQ, hfresh, ← hrlen, get?_append_len]

/-! ## Claim C1: the module-level syntax error -/

/-- C1: for every filesystem state and both entry modes (run as script,
imported), evaluating `pipeline.py` ends in a compile-time `SyntaxError`
— the final top-level statement `print( Hello Noah! )` contains the
lexically illegal lone `!` — so no statement executes, no stage runs,
and the filesystem is untouched. -/
theorem runScript_always_syntax_error (asScript : Bool) (fs : FileSys) :
    runScript asScript fs = ScriptOutcome.syntaxError fs := by
  have h : scanModule LexMode.code pipelineSourceLines = false := by decide
  unfold runScript
  rw [h]
  simp

/-! ## Claim C3: `Final Outcome` derivation -/

/-- C3: for every (rectangular) table, `finaloutcome` preserves the row
count and gives each row a `Final Outcome` equal to `Outcome type` when
that is non-null, else `Last outcome category` (possibly itself null);
`Last outcome category` is ignored whenever `Outcome type` is non-null. -/
theorem finaloutcome_derives_final_outcome (df df2 : Df) (hwf : Wf df)
    (h : finaloutcome df = .ok df2) :
    df2.rows.length = df.rows.length ∧
    ∀ i r, df.rows.get? i = some r →
      ∃ r2, df2.rows.get? i = some r2 ∧
        cellAt df2.cols r2 "Final Outcome" =
          (if (cellAt df.cols r "Outcome type").isSome
           then cellAt df.cols r "Outcome type"
           else cellAt df.cols r "Last outcome category") := by
  unfold finaloutcome at h
  split at h
  · exact absurd h (by simp)
  · injection h with h
    subst h
    refine ⟨setColDf_rows_length (by simp), ?_⟩
    intro i r hr
    have hv : (df.rows.map (fun r =>
        if (cellAt df.cols r "Outcome type").isSome
        then cellAt df.cols r "Outcome type"
        else cellAt df.cols r "Last outcome category")).get? i =
        some (if (cellAt df.cols r "Outcome type").isSome
              then cellAt df.cols r "Outcome type"
              else cellAt df.cols r "Last outcome category") := by
      rw [List.get?_map, hr]
      rfl
    exact setColDf_cell hwf hr hv

/-- Witness for C3 at a concrete two-row table. -/
theorem finaloutcome_derives_final_outcome_witness :
    finaloutcome c3Df = .ok c3Out ∧ c3Out.rows.length = c3Df.rows.length := by
  refine ⟨by rfl, ?_⟩
  exact (finaloutcome_derives_final_outcome c3Df c3Out (by decide) (by rfl)).1

/-! ## Claim C5: left-join multiplicity -/

/-- C5: a successful `merge_data` emits, for each incident row in order,
one block of rows: the row once with null `Outcome type` when no outcome
row matches its `Crime ID`, else once per matching outcome row.  Hence
the merged row count is the sum of `max(k, 1)` over the incident rows'
match counts, is at least the incident row count, and each contributed
row is present. -/
theorem merge_data_preserves_left_rows (df dfo m : Df) (h : merge_data df dfo = .ok m) :
    m.rows.length =
      (df.rows.map (fun r => max (matchesOf dfo (cellAt df.cols r "Crime ID")).length 1)).sum ∧
    df.rows.length ≤ m.rows.length ∧
    (∀ r ∈ df.rows, matchesOf dfo (cellAt df.cols r "Crime ID") = [] →
      (r ++ [none]) ∈ m.rows) ∧
    (∀ r ∈ df.rows, ∀ p ∈ matchesOf dfo (cellAt df.cols r "Crime ID"),
      (r ++ [p.2]) ∈ m.rows) := by
  unfold merge_data at h
  split at h
  · split at h
    · injection h with h
      subst h
      have hlen : ∀ r, (mergeOneRow dfo df.cols r).length =
          max (matchesOf dfo (cellAt df.cols r "Crime ID")).length 1 := by
        intro r
        unfold mergeOneRow
        by_cases hms : matchesOf dfo (cellAt df.cols r "Crime ID") = []
        · simp [hms]
        · have hpos : 0 < (matchesOf dfo (cellAt df.cols r "Crime ID")).length :=
            List.length_pos.mpr hms
          simp only [if_neg hms, List.length_map]
          omega
      refine ⟨?_, ?_, ?_, ?_⟩
      · simp only [List.length_flatMap]
        exact congrArg List.sum (List.map_congr_left (fun r _ => hlen r))
      · have hle : (df.rows.map (fun r => (mergeOneRow dfo df.cols r).length)).length ≤
            (df.rows.map (fun r => (mergeOneRow dfo df.cols r).length)).sum := by
          apply length_le_sum_of_one_le
          intro x hx
          obtain ⟨r, _, rfl⟩ := List.mem_map.mp hx
          rw [hlen r]
          exact Nat.le_max_right _ 1
        simpa [List.length_flatMap] using hle
      · intro r hr hms
        exact List.mem_flatMap.mpr ⟨r, hr, by simp [mergeOneRow, hms]⟩
      · intro r hr p hp
        refine List.mem_flatMap.mpr ⟨r, hr, ?_⟩
        unfold mergeOneRow
        have hne : matchesOf dfo (cellAt df.cols r "Crime ID") ≠ [] := by
          intro he
          rw [he] at hp
          simp at hp
        simp only [if_neg hne]
        exact List.mem_map_of_mem _ hp
    · exact absurd h (by simp)
  · exact absurd h (by simp)

/-- Witness for C5: on the concrete pair, the theorem applies and yields
the row-count inequality (2 incident rows, 3 merged rows). -/
theorem merge_data_preserves_left_rows_witness :
    c5Df.rows.length ≤ c5Merged.rows.length :=
  (merge_data_preserves_left_rows c5Df c5Dfo c5Merged (by rfl)).2.1

/-! ## Claim C7: the staged output never contains the dropped columns -/

/-- C7: whenever the staging transform chain succeeds (hence whenever
`stage_data` writes an output file), none of the six dropped columns
remains, and the derived `Broad Outcome Category` column is present. -/
theorem stagePipe_drops_columns (df dfo d : Df) (h : stagePipe df dfo = .ok d) :
    (∀ c ∈ cols_to_delete, c ∉ d.cols) ∧ "Broad Outcome Category" ∈ d.cols := by
  unfold stagePipe at h
  obtain ⟨m, _, h⟩ := exceptBind_ok h
  obtain ⟨f2, _, h⟩ := exceptBind_ok h
  obtain ⟨f3, hcat, h⟩ := exceptBind_ok h
  have hf3 : "Broad Outcome Category" ∈ f3.cols := by
    unfold apply_categorization at hcat
    split at hcat
    · injection hcat with hcat
      subst hcat
      exact setColDf_cols_mem _ _ _
    · exact absurd hcat (by simp)
  unfold del_values_street at h
  split at h
  · injection h with h
    subst h
    constructor
    · intro c hc hmem
      have := (List.mem_filter.mp hmem).2
      simp only [decide_eq_true_eq] at this
      exact this hc
    · exact List.mem_filter.mpr ⟨hf3, by decide⟩
  · exact absurd h (by simp)

/-- Witness for C7: on the concrete staging input, the chain succeeds and
the theorem yields absence of a dropped column and presence of the
category column. -/
theorem stagePipe_drops_columns_witness :
    "Outcome type" ∉ c7Staged.cols ∧ "Broad Outcome Category" ∈ c7Staged.cols :=
  ⟨(stagePipe_drops_columns c7Df c7Dfo c7Staged (by rfl)).1 "Outcome type" (by decide),
   (stagePipe_drops_columns c7Df c7Dfo c7Staged (by rfl)).2⟩

/-! ## Claim C10: a missing droppable column and the absence of output -/

/-- Columns are only ever added (or suffix-renamed away from the three
passthrough labels) before the drop step, so a passthrough column absent
from the incidents table is still absent when `del_values_street` runs. -/
theorem mergedCols_preserves_absent {cols : List String} {c : String}
    (hc : c ∉ cols) (h1 : c ≠ "Outcome type") (hx : c ≠ "Outcome type_x")
    (hy : c ≠ "Outcome type_y") : c ∉ mergedCols cols := by
  unfold mergedCols
  split
  · intro hmem
    rcases List.mem_append.mp hmem with hm | hm
    · obtain ⟨c0, hc0, heq⟩ := List.mem_map.mp hm
      by_cases h0 : c0 = "Outcome type"
      · rw [if_pos h0] at heq
        exact hx heq.symm
      · rw [if_neg h0] at heq
        exact hc (heq ▸ hc0)
    · simp at hm
      exact hy hm
  · intro hmem
    rcases List.mem_append.mp hmem with hm | hm
    · exact hc hm
    · simp at hm
      exact h1 hm

/-- The cols of a successful `finaloutcome` are those of `setColDf` at
`Final Outcome`. -/
theorem finaloutcome_cols_absent {df df2 : Df} {c : String}
    (h : finaloutcome df = .ok df2) (hc : c ∉ df.cols) (hne : c ≠ "Final Outcome") :
    c ∉ df2.cols := by
  unfold finaloutcome at h
  split at h
  · exact absurd h (by simp)
  · injection h with h
    subst h
    exact fun hmem => hc ((setColDf_cols_other hne).mp hmem)

/-- The cols of a successful `apply_categorization` are those of
`setColDf` at `Broad Outcome Category`. -/
theorem apply_categorization_cols_absent {df df2 : Df} {c : String}
    (h : apply_categorization df = .ok df2) (hc : c ∉ df.cols)
    (hne : c ≠ "Broad Outcome Category") : c ∉ df2.cols := by
  unfold apply_categorization at h
  split at h
  · injection h with h
    subst h
    exact fun hmem => hc ((setColDf_cols_other hne).mp hmem)
  · exact absurd h (by simp)

/-- When a column from the drop list is absent when `del_values_street`
runs, the drop raises. -/
theorem stagePipe_error_of_missing (df dfo : Df) (c : String)
    (hc : c ∉ df.cols) (hmem : c ∈ cols_to_delete)
    (h1 : c ≠ "Outcome type") (hx : c ≠ "Outcome type_x") (hy : c ≠ "Outcome type_y")
    (hf : c ≠ "Final Outcome") (hb : c ≠ "Broad Outcome Category") :
    ∃ e, stagePipe df dfo = .error e := by
  unfold stagePipe
  cases hm : merge_data df dfo with
  | error e => exact ⟨e, rfl⟩
  | ok m =>
    have hcm : c ∉ m.cols := by
      unfold merge_data at hm
      split at hm
      · split at hm
        · injection hm with hm
          subst hm
          exact mergedCols_preserves_absent hc h1 hx hy
        · exact absurd hm (by simp)
      · exact absurd hm (by simp)
    simp only [Except.bind]
    cases hfo : finaloutcome m with
    | error e => exact ⟨e, rfl⟩
    | ok f2 =>
      have hcf2 : c ∉ f2.cols := finaloutcome_cols_absent hfo hcm hf
      simp only [Except.bind]
      cases hac : apply_categorization f2 with
      | error e => exact ⟨e, rfl⟩
      | ok f3 =>
        have hcf3 : c ∉ f3.cols := apply_categorization_cols_absent hac hcf2 hb
        simp only [Except.bind]
        unfold del_values_street
        rw [if_neg]
        · exact ⟨"KeyError: drop", rfl⟩
        · intro hall
          exact hcf3 (hall c hmem)

/-- C10 (amended): for every incidents table missing one of the three
passthrough dropped columns (`Reported by`, `Context`, `Location`), the
staging chain raises internally — at the drop step whenever the earlier
steps succeed — the exception is caught and logged inside `stage_data`,
which returns normally having written nothing. -/
theorem stage_data_missing_passthrough_no_output (df dfo : Df) (file : String) (fs : FileSys)
    (h : "Reported by" ∉ df.cols ∨ "Context" ∉ df.cols ∨ "Location" ∉ df.cols) :
    (stage_data df dfo file fs).1 = fs ∧ ∃ e, stagePipe df dfo = .error e := by
  have herr : ∃ e, stagePipe df dfo = .error e := by
    rcases h with hc | hc | hc
    · exact stagePipe_error_of_missing df dfo "Reported by" hc (by decide)
        (by decide) (by decide) (by decide) (by decide) (by decide)
    · exact stagePipe_error_of_missing df dfo "Context" hc (by decide)
        (by decide) (by decide) (by decide) (by decide) (by decide)
    · exact stagePipe_error_of_missing df dfo "Location" hc (by decide)
        (by decide) (by decide) (by decide) (by decide) (by decide)
  obtain ⟨e, he⟩ := herr
  refine ⟨?_, e, he⟩
  unfold stage_data
  rw [he]

/-- Witness for the amended C10 at a concrete input missing `Context`. -/
theorem stage_data_missing_passthrough_no_output_witness :
    (stage_data c10Df c7Dfo STAGED_DATA_FILE []).1 = ([] : FileSys) :=
  (stage_data_missing_passthrough_no_output c10Df c7Dfo STAGED_DATA_FILE []
    (Or.inr (Or.inl (by decide)))).1

/-- Counterexample to C10 as stated: `Outcome type` is one of the six
dropped columns, an incidents table lacking it is the normal case, and
staging then succeeds and writes its output file — so "missing any one
of the six dropped columns implies no output file" is false. -/
theorem stage_data_missing_outcome_type_writes :
    "Outcome type" ∈ cols_to_delete ∧ "Outcome type" ∉ c7Df.cols ∧
    (stage_data c7Df c7Dfo STAGED_DATA_FILE []).1 ≠ ([] : FileSys) := by
  refine ⟨by decide, by decide, ?_⟩
  intro hcontra
  have : (stage_data c7Df c7Dfo STAGED_DATA_FILE []).1.length = 1 := by rfl
  rw [hcontra] at this
  simp at this

/-! ## Claim C6: the `Location Sum` column -/

/-- C6: a successful `primary_transformations` adds `Location Sum` iff
both `Latitude` and `Longitude` exist in the (rectangular, staged-shaped)
input; when added, each row's value is the elementwise `addCell` of the
two coordinates, which is null whenever either operand is null; when
either column is missing the output is the unchanged input, so it has no
`Location Sum` column at all. -/
theorem primary_transformations_location_sum (df d : Df) (hwf : Wf df)
    (hLS : "Location Sum" ∉ df.cols) (h : primary_transformations df = .ok d) :
    (("Location Sum" ∈ d.cols) ↔ ("Latitude" ∈ df.cols ∧ "Longitude" ∈ df.cols)) ∧
    (("Latitude" ∈ df.cols ∧ "Longitude" ∈ df.cols) →
      d.rows.length = df.rows.length ∧
      ∀ i r, df.rows.get? i = some r →
        ∃ r2, d.rows.get? i = some r2 ∧
          cellAt d.cols r2 "Location Sum" =
            addCell (cellAt df.cols r "Latitude") (cellAt df.cols r "Longitude")) ∧
    ((¬ ("Latitude" ∈ df.cols ∧ "Longitude" ∈ df.cols)) → d = df) ∧
    (∀ a, addCell a none = none) ∧ (∀ b, addCell none b = none) := by
  have haddr : ∀ a, addCell a none = none := by
    intro a
    cases a with
    | none => rfl
    | some v => cases v <;> rfl
  have haddl : ∀ b, addCell none b = none := fun b => rfl
  unfold primary_transformations at h
  split at h
  · split at h
    · split at h
      case isTrue hll =>
        split at h
        · injection h with h
          subst h
          refine ⟨iff_of_true (setColDf_cols_mem _ _ _) hll, ?_,
                  fun hn => absurd hll hn, haddr, haddl⟩
          intro _
          have hvlen : (List.zipWith addCell (colVals df "Latitude")
              (colVals df "Longitude")).length = df.rows.length := by
            simp [List.length_zipWith, colVals]
          refine ⟨setColDf_rows_length hvlen, ?_⟩
          intro i r hr
          have hlat : (colVals df "Latitude").get? i =
              some (cellAt df.cols r "Latitude") := by
            unfold colVals
            rw [List.get?_map, hr]
            rfl
          have hlon : (colVals df "Longitude").get? i =
              some (cellAt df.cols r "Longitude") := by
            unfold colVals
            rw [List.get?_map, hr]
            rfl
          exact setColDf_cell hwf hr (get?_zipWith addCell hlat hlon)
        · exact absurd h (by simp)
      case isFalse hll =>
        injection h with h
        subst h
        exact ⟨iff_of_false hLS hll, fun hc => absurd hc hll, fun _ => rfl, haddr, haddl⟩
    · exact absurd h (by simp)
  · exact absurd h (by simp)

/-- Witness for C6 at a concrete table with both coordinate columns. -/
theorem primary_transformations_location_sum_witness :
    primary_transformations c6Df = .ok c6Out ∧
    ("Location Sum" ∈ c6Out.cols ↔ ("Latitude" ∈ c6Df.cols ∧ "Longitude" ∈ c6Df.cols)) :=
  ⟨by rfl,
   (primary_transformations_location_sum c6Df c6Out (by decide) (by decide) (by rfl)).1⟩

/-! ## Claim C4: the count invariants of the reporting aggregation -/

/-- The two `BEq (Val × Val)` instances in scope (the product instance
used when elaborating `List.count`, and the one derived from decidable
equality) count identically. -/
theorem count_beq_bridge (l : List (Val × Val)) (x : Val × Val) :
    l.count x = @List.count _ instBEqOfDecidableEq x l := by
  induction l with
  | nil => rfl
  | cons a t ih =>
    rw [List.count_cons, @List.count_cons _ instBEqOfDecidableEq, ih]
    have hbeq : (@BEq.beq _ instBEqProd a x) = (@BEq.beq _ instBEqOfDecidableEq a x) := by
      obtain ⟨a1, a2⟩ := a
      obtain ⟨x1, x2⟩ := x
      by_cases h1 : a1 = x1 <;> by_cases h2 : a2 = x2 <;>
        simp [instBEqProd, instBEqOfDecidableEq, h1, h2]
    rw [hbeq]

/-- Lemma `List.sum_map_count_dedup_eq_length`, transported to the product
`BEq` instance. -/
theorem sum_map_count_dedup_prod (l : List (Val × Val)) :
    (l.dedup.map fun x => l.count x).sum = l.length := by
  have hmap : (l.dedup.map fun x => l.count x) =
      (l.dedup.map fun x => @List.count _ instBEqOfDecidableEq x l) :=
    List.map_congr_left (fun x _ => count_beq_bridge l x)
  rw [hmap]
  exact List.sum_map_count_dedup_eq_length l

/-- C4 (amended): a successful `reporting_aggregation` emits only groups
with a strictly positive `Count`, and the `Count` values sum to the
number of input rows whose two grouping cells are both non-null (pandas
`groupby` drops rows with a null key); when every row has both keys
non-null this equals the full input row count. -/
theorem reporting_aggregation_counts (df agg : Df)
    (h : reporting_aggregation df = .ok agg) :
    (∀ r ∈ agg.rows, ∃ q : ℚ, r.get? 2 = some (some (Val.num q)) ∧ 0 < q) ∧
    sumCounts agg = ((groupKeys df).length : ℚ) ∧
    ((∀ r ∈ df.rows, (cellAt df.cols r "Crime type").isSome ∧
        (cellAt df.cols r "Broad Outcome Category").isSome) →
      (groupKeys df).length = df.rows.length) := by
  unfold reporting_aggregation at h
  split at h
  · injection h with h
    subst h
    refine ⟨?_, ?_, ?_⟩
    · intro r hr
      obtain ⟨k, hk, rfl⟩ := List.mem_map.mp hr
      refine ⟨((groupKeys df).count k : ℚ), rfl, ?_⟩
      have hpos : 0 < (groupKeys df).count k :=
        List.count_pos_iff.mpr (List.mem_dedup.mp hk)
      exact_mod_cast hpos
    · unfold sumCounts
      simp only [List.map_map]
      have hfun : (rowCountQ ∘ fun k : Val × Val =>
          ([some k.1, some k.2, some (Val.num ((groupKeys df).count k : ℚ))] : Row)) =
          (fun k : Val × Val => (((groupKeys df).count k : ℕ) : ℚ)) :=
        funext (fun k => rfl)
      rw [hfun]
      have hcomp : ((groupKeys df).dedup.map (fun k => (((groupKeys df).count k : ℕ) : ℚ))) =
          (((groupKeys df).dedup.map (fun k => (groupKeys df).count k)).map
            (fun n : ℕ => (n : ℚ))) := by
        rw [List.map_map]
        rfl
      rw [hcomp, ← Nat.cast_list_sum, sum_map_count_dedup_prod]
    · intro hall
      unfold groupKeys
      apply filterMap_length_of_some
      intro r hr
      obtain ⟨a, ha⟩ := Option.isSome_iff_exists.mp (hall r hr).1
      obtain ⟨b, hb⟩ := Option.isSome_iff_exists.mp (hall r hr).2
      simp [ha, hb]
  · exact absurd h (by simp)

/-- Counterexample to C4 as stated: on a one-row primary table whose
`Crime type` is null, the aggregation succeeds but emits no row at all
(pandas `groupby` drops null keys), so the `Count` total is `0` while
the input has `1` row — the claimed equality of the `Count` sum with the
input row count fails. -/
theorem reporting_aggregation_drops_null_keys :
    reporting_aggregation c4Df =
      .ok ⟨["Crime type", "Broad Outcome Category", "Count"], []⟩ ∧
    c4Df.rows.length = 1 ∧
    sumCounts ⟨["Crime type", "Broad Outcome Category", "Count"], []⟩ = 0 :=
  ⟨rfl, rfl, rfl⟩

/-- Witness for the amended C4 at a concrete all-non-null table. -/
theorem reporting_aggregation_counts_witness :
    sumCounts c4AggOut = ((groupKeys c4GoodDf).length : ℚ) ∧
    (groupKeys c4GoodDf).length = c4GoodDf.rows.length :=
  ⟨(reporting_aggregation_counts c4GoodDf c4AggOut (by rfl)).2.1,
   (reporting_aggregation_counts c4GoodDf c4AggOut (by rfl)).2.2 (by decide)⟩

/-! ## Claim C9: the ingestion contract -/

/-- C9: `ingest_data` realizes `ingest(path) -> Table | NotFound | ParseError`:
a missing path yields the `None` signal after an error log, malformed
content yields the `None` signal after an error log, and an existing
parseable file yields its table; in all three cases the function returns
normally. -/
theorem ingest_data_contract (fs : FileSys) (p : String) :
    (lookupFs fs p = none →
      (ingest_data fs p).1 = none ∧
      ∃ m, LogEvent.error m ∈ (ingest_data fs p).2) ∧
    (lookupFs fs p = some .malformed →
      (ingest_data fs p).1 = none ∧
      ∃ m, LogEvent.error m ∈ (ingest_data fs p).2) ∧
    (∀ d, lookupFs fs p = some (.table d) → (ingest_data fs p).1 = some d) := by
  refine ⟨fun h => ?_, fun h => ?_, fun d h => ?_⟩
  · exact ⟨by simp [ingest_data, h], ⟨"File not found: " ++ p, by simp [ingest_data, h]⟩⟩
  · exact ⟨by simp [ingest_data, h],
           ⟨"Error reading the CSV file " ++ p, by simp [ingest_data, h]⟩⟩
  · simp [ingest_data, h]

/-- Witness for C9 on a concrete filesystem exercising all three cases. -/
theorem ingest_data_contract_witness :
    (ingest_data [] "a.csv").1 = none ∧
    (ingest_data [("b.csv", FileContent.malformed)] "b.csv").1 = none ∧
    (ingest_data [("c.csv", FileContent.table ⟨[], []⟩)] "c.csv").1 = some ⟨[], []⟩ :=
  ⟨((ingest_data_contract [] "a.csv").1 (by rfl)).1,
   ((ingest_data_contract [("b.csv", FileContent.malformed)] "b.csv").2.1 (by rfl)).1,
   (ingest_data_contract [("c.csv", FileContent.table ⟨[], []⟩)] "c.csv").2.2
     ⟨[], []⟩ (by rfl)⟩

/-! ## Claim C8: the orchestrator on failed initial ingestion -/

/-- C8: when either initial ingestion hits a missing or malformed file,
`main` runs no downstream stage and writes nothing (the filesystem is
returned unchanged, so no staged/primary/reporting file appears), returns
normally, and still logs
`"Pipeline execution completed successfully"`. -/
theorem pipelineMain_skips_and_logs_completion (fs : FileSys)
    (h : lookupFs fs RAW_DATA_FILE = none ∨
         lookupFs fs RAW_DATA_FILE = some .malformed ∨
         lookupFs fs OUTCOMES_DATA_FILE = none ∨
         lookupFs fs OUTCOMES_DATA_FILE = some .malformed) :
    (pipelineMain fs).1 = fs ∧
    LogEvent.info "Pipeline execution completed successfully" ∈ (pipelineMain fs).2 := by
  have hnone : (ingest_data fs RAW_DATA_FILE).1 = none ∨
      (ingest_data fs OUTCOMES_DATA_FILE).1 = none := by
    rcases h with h | h | h | h
    · exact Or.inl (by simp [ingest_data, h])
    · exact Or.inl (by simp [ingest_data, h])
    · exact Or.inr (by simp [ingest_data, h])
    · exact Or.inr (by simp [ingest_data, h])
  unfold pipelineMain
  dsimp only
  cases hr : (ingest_data fs RAW_DATA_FILE).1 with
  | none => simp
  | some df =>
    cases ho : (ingest_data fs OUTCOMES_DATA_FILE).1 with
    | none => simp
    | some dfo =>
      rcases hnone with hn | hn
      · rw [hr] at hn
        exact absurd hn (by simp)
      · rw [ho] at hn
        exact absurd hn (by simp)

/-- Witness for C8: the empty filesystem (both raw inputs missing). -/
theorem pipelineMain_skips_and_logs_completion_witness :
    (pipelineMain []).1 = ([] : FileSys) ∧
    LogEvent.info "Pipeline execution completed successfully" ∈ (pipelineMain []).2 :=
  pipelineMain_skips_and_logs_completion [] (Or.inl (by rfl))
